import Mathlib

/-!
Shallow embedding of `api/interaction.go` (interaction endpoints of an HTTP
chat-API client).  Pure Go data is translated to Lean structures; the opaque
collaborators (the `Validate`/`Length` methods of the embed type, the
`Verify` method of the allowed-mentions policy) are passed in as function parameters, since the claims
quantify over their behaviour.  Go `error` values are modelled as `String`
causes wrapped in a structured `APIError`.  The single outbound network call
of each operation is modelled as the returned `SendReq` value: an operation
either returns a validation `APIError` (no request issued) or the one
request it delegates to the transport.
-/

set_option autoImplicit false

namespace Interaction

/-- `option.NullableStringData` from `utils/json/option`: a string value plus
an `Init` flag; `Init = false` marshals as JSON `null`. -/
structure NullableStringData where
  Val : String
  Init : Bool
deriving DecidableEq, Repr

/-- `option.NullableString` is a Go pointer `*NullableStringData`:
`none` is the nil pointer (field omitted). -/
abbrev NullableString := Option NullableStringData

/-- A Go slice value: either the nil slice or a (possibly empty) list of
elements.  `GoSlice.nil` and `GoSlice.lit []` are distinct, as in Go. -/
inductive GoSlice (α : Type) where
  | nil
  | lit (elems : List α)
deriving DecidableEq, Repr

namespace GoSlice

/-- Ranging over a Go slice: the nil slice has no elements. -/
def toList {α : Type} : GoSlice α → List α
  | .nil => []
  | .lit l => l

/-- Go `len` of a slice (0 for the nil slice). -/
def len {α : Type} (s : GoSlice α) : Nat := s.toList.length

/-- Writing elements back into an existing slice value index by index: the
loop body never runs on the nil slice, so it stays nil. -/
def writeBack {α : Type} (s : GoSlice α) (l : List α) : GoSlice α :=
  match s with
  | .nil => .nil
  | .lit _ => .lit l

end GoSlice

/-- `InteractionResponseType` is a Go `uint`. -/
abbrev InteractionResponseType := Nat

def PongInteraction : InteractionResponseType := 1
def MessageInteractionWithSource : InteractionResponseType := 4
def DeferredMessageInteractionWithSource : InteractionResponseType := 5
def DeferredMessageUpdate : InteractionResponseType := 6
def UpdateMessage : InteractionResponseType := 7
def AutocompleteResult : InteractionResponseType := 8
def ModalResponse : InteractionResponseType := 9

/-- The structured errors the operations return.  `errEmptyMessage` is the
sentinel `ErrEmptyMessage`; `allowedMentionsError` is
`fmt.Errorf("allowedMentions error: %w", err)`; `embedErrorAt` is
`fmt.Errorf("embed error at %d: %w", i, err)` (used by RespondInteraction and
FollowUpInteraction); `embedError` is `fmt.Errorf("embed error: %w", err)`
(used by the two edit operations, which drop the index); `overboundError` is
`discord.OverboundError{Count, Max, Thing}`. -/
inductive APIError where
  | errEmptyMessage
  | allowedMentionsError (cause : String)
  | embedErrorAt (index : Nat) (cause : String)
  | embedError (cause : String)
  | overboundError (count max : Nat) (thing : String)
deriving DecidableEq, Repr

/-- `InteractionResponseData`.  The embed, component, mention-policy,
autocomplete-choice and file types are opaque type parameters. -/
structure InteractionResponseData (E C M Ch F : Type) where
  Content : NullableString
  TTS : Bool
  Embeds : Option (GoSlice E)
  Components : Option C
  AllowedMentions : Option M
  Flags : Nat
  Files : List F
  Choices : Option Ch
  CustomID : NullableString
  Title : NullableString
deriving DecidableEq, Repr

/-- `InteractionResponse`: a response type tag plus optional payload data
(`Data` is a Go pointer, `none` = nil). -/
structure InteractionResponse (E C M Ch F : Type) where
  type : InteractionResponseType
  Data : Option (InteractionResponseData E C M Ch F)
deriving DecidableEq, Repr

/-- `EditInteractionResponseData` (narrower payload used by the two edit
operations; `A` is the opaque attachment type). -/
structure EditInteractionResponseData (E C M A F : Type) where
  Content : NullableString
  Embeds : Option (GoSlice E)
  Components : Option C
  AllowedMentions : Option M
  Attachments : Option (GoSlice A)
  Files : List F
deriving DecidableEq, Repr

/-- `InteractionResponseData.NeedsMultipart`: `len(d.Files) > 0`. -/
def InteractionResponseData.NeedsMultipart {E C M Ch F : Type}
    (d : InteractionResponseData E C M Ch F) : Bool :=
  decide (0 < d.Files.length)

/-- `InteractionResponse.NeedsMultipart`:
`resp.Data != nil && resp.Data.NeedsMultipart()`. -/
def InteractionResponse.NeedsMultipart {E C M Ch F : Type}
    (resp : InteractionResponse E C M Ch F) : Bool :=
  match resp.Data with
  | none => false
  | some d => d.NeedsMultipart

/-- `EditInteractionResponseData.NeedsMultipart`: `len(data.Files) > 0`. -/
def EditInteractionResponseData.NeedsMultipart {E C M A F : Type}
    (d : EditInteractionResponseData E C M A F) : Bool :=
  decide (0 < d.Files.length)

/-- Modelled from the spec: the base API endpoint string (`api.Endpoint`,
defined outside the source file embedded here); only its literal value is opaque, URL
assembly below concatenates onto it exactly as the source does. -/
def Endpoint : String := "https://discord.com/api/v10/"

/-- `EndpointInteractions = Endpoint + "interactions/"`. -/
def EndpointInteractions : String := Endpoint ++ "interactions/"

/-- Modelled from the spec: `api.EndpointWebhooks` is the base endpoint
followed by `webhooks/` (the `webhooks/{appID}/{token}` URL shapes of the spec table). -/
def EndpointWebhooks : String := Endpoint ++ "webhooks/"

/-- One part of a request body: the JSON-encoded payload or one file. -/
inductive BodyPart (P F : Type) where
  | json (payload : P)
  | file (f : F)
deriving DecidableEq, Repr

/-- The single outbound request an operation delegates to the transport. -/
structure SendReq (P F : Type) where
  method : String
  url : String
  payload : P
  multipart : Bool
  body : List (BodyPart P F)
deriving DecidableEq, Repr

/-- Modelled from the spec: `sendpart.POST` (in `utils/sendpart`, outside
the source file embedded here) sends the payload with multipart
encoding iff `NeedsMultipart` of the payload says so, the body being the JSON-encoded payload
as one part followed by each file as a subsequent part in list order;
otherwise a plain JSON body. -/
def sendpartPOST {P F : Type} (payload : P) (needs : Bool) (files : List F)
    (url : String) : SendReq P F :=
  { method := "POST", url := url, payload := payload, multipart := needs,
    body :=
      if needs then BodyPart.json payload :: files.map BodyPart.file
      else [BodyPart.json payload] }

/-- Modelled from the spec: `sendpart.PATCH`, same body rule as
`sendpart.POST` with method PATCH. -/
def sendpartPATCH {P F : Type} (payload : P) (needs : Bool) (files : List F)
    (url : String) : SendReq P F :=
  { method := "PATCH", url := url, payload := payload, multipart := needs,
    body :=
      if needs then BodyPart.json payload :: files.map BodyPart.file
      else [BodyPart.json payload] }

/-- `resp.Data.Content == nil || resp.Data.Content.Val == ""` (the
new-message emptiness test on content). -/
def contentNilOrEmpty : NullableString → Bool
  | none => true
  | some c => c.Val == ""

/-- `resp.Data.Embeds == nil || len(*resp.Data.Embeds) == 0`. -/
def embedsNilOrEmpty {E : Type} : Option (GoSlice E) → Bool
  | none => true
  | some s => s.len == 0

/-- `resp.Data.Content != nil && !resp.Data.Content.Init` (the
update-message test: content pointer present but marked uninitialized,
i.e. explicit JSON null). -/
def contentPresentUninit : NullableString → Bool
  | none => false
  | some c => !c.Init

/-- `resp.Data.Embeds != nil && *resp.Data.Embeds == nil` (the
update-message test: embeds pointer present but pointing at the nil
slice).  A pointer to the empty non-nil slice fails this test. -/
def embedsPresentNil {E : Type} : Option (GoSlice E) → Bool
  | none => false
  | some .nil => true
  | some (.lit _) => false

/-- The `switch resp.Type` emptiness validation in `RespondInteraction`
(reached only when `resp.Data != nil`). -/
def respondEmptinessCheck {E C M Ch F : Type} (ty : InteractionResponseType)
    (d : InteractionResponseData E C M Ch F) : Except APIError Unit :=
  if ty = MessageInteractionWithSource then
    if contentNilOrEmpty d.Content && embedsNilOrEmpty d.Embeds
        && (d.Files.length == 0) then
      .error .errEmptyMessage
    else .ok ()
  else if ty = UpdateMessage then
    if contentPresentUninit d.Content && embedsPresentNil d.Embeds
        && (d.Files.length == 0) then
      .error .errEmptyMessage
    else .ok ()
  else .ok ()

/-- `if AllowedMentions != nil { if err := Verify(); err != nil { return
fmt.Errorf("allowedMentions error: %w", err) } }`.  `mverify m = some c`
models `Verify` returning the error cause `c`. -/
def checkMentions {M : Type} (mverify : M → Option String) :
    Option M → Except APIError Unit
  | none => .ok ()
  | some am =>
    match mverify am with
    | some cause => .error (.allowedMentionsError cause)
    | none => .ok ()

/-- The embed loop shared (textually duplicated) by all four validating
operations: for each embed in order, run its own validator (`validate e =
.error c` models `embed.Validate()` failing with cause `c`, `.ok e2` the
validated, possibly normalized, embed), add the `Length()` of the validated embed
to the running sum, fail with `OverboundError{sum, 6000, thing}` when the
sum exceeds 6000, and write the validated embed back at the same index.
`mkErr` is how a per-embed failure is wrapped: `APIError.embedErrorAt` for
RespondInteraction/FollowUpInteraction, index-dropping `APIError.embedError`
for the edit operations.  Returns the written-back list on success. -/
def embedLoop {E : Type} (validate : E → Except String E) (elen : E → Nat)
    (mkErr : Nat → String → APIError) (thing : String) :
    Nat → Nat → List E → Except APIError (List E)
  | _, _, [] => .ok []
  | i, sum, e :: rest =>
    match validate e with
    | .error c => .error (mkErr i c)
    | .ok e2 =>
      let sum2 := sum + elen e2
      if 6000 < sum2 then .error (.overboundError sum2 6000 thing)
      else
        match embedLoop validate elen mkErr thing (i + 1) sum2 rest with
        | .error er => .error er
        | .ok rest2 => .ok (e2 :: rest2)

/-- `if Embeds != nil { ... loop ... }`: the nil pointer skips validation
entirely; otherwise the loop runs over the pointee slice and the validated
embeds are written back into it. -/
def validateEmbedsOpt {E : Type} (validate : E → Except String E)
    (elen : E → Nat) (mkErr : Nat → String → APIError) (thing : String) :
    Option (GoSlice E) → Except APIError (Option (GoSlice E))
  | none => .ok none
  | some s =>
    match embedLoop validate elen mkErr thing 0 0 s.toList with
    | .error e => .error e
    | .ok l => .ok (some (s.writeBack l))

/-- The validation block of `RespondInteraction` (runs only when
`resp.Data != nil`): emptiness switch, then mention policy, then embed
batch; on success the payload with the written-back embed list. -/
def respondValidate {E C M Ch F : Type} (validate : E → Except String E)
    (elen : E → Nat) (mverify : M → Option String)
    (ty : InteractionResponseType) (d : InteractionResponseData E C M Ch F) :
    Except APIError (InteractionResponseData E C M Ch F) :=
  match respondEmptinessCheck ty d with
  | .error e => .error e
  | .ok _ =>
    match checkMentions mverify d.AllowedMentions with
    | .error e => .error e
    | .ok _ =>
      match validateEmbedsOpt validate elen APIError.embedErrorAt
          "sum of all text in embeds" d.Embeds with
      | .error e => .error e
      | .ok embeds2 => .ok { d with Embeds := embeds2 }

/-- `Client.RespondInteraction`: validates (when `Data != nil`) and then
POSTs to `EndpointInteractions + id.String() + "/" + token + "/callback"`.
Returns the issued request, or the validation error (no request issued). -/
def respondInteraction {E C M Ch F : Type} (validate : E → Except String E)
    (elen : E → Nat) (mverify : M → Option String)
    (id : Nat) (token : String) (resp : InteractionResponse E C M Ch F) :
    Except APIError (SendReq (InteractionResponse E C M Ch F) F) :=
  let url := EndpointInteractions ++ toString id ++ "/" ++ token ++ "/callback"
  match resp.Data with
  | none => .ok (sendpartPOST resp resp.NeedsMultipart [] url)
  | some d =>
    match respondValidate validate elen mverify resp.type d with
    | .error e => .error e
    | .ok d2 =>
      let resp2 : InteractionResponse E C M Ch F :=
        { resp with Data := some d2 }
      .ok (sendpartPOST resp2 resp2.NeedsMultipart d2.Files url)

/-- `Client.FollowUpInteraction`: new-message emptiness check, mention
policy, embed batch (indexed errors), then POST to
`EndpointWebhooks + appID.String() + "/" + token + "?"` — note the literal
question mark the source appends after the token. -/
def followUpInteraction {E C M Ch F : Type} (validate : E → Except String E)
    (elen : E → Nat) (mverify : M → Option String)
    (appID : Nat) (token : String) (data : InteractionResponseData E C M Ch F) :
    Except APIError (SendReq (InteractionResponseData E C M Ch F) F) :=
  if contentNilOrEmpty data.Content && embedsNilOrEmpty data.Embeds
      && (data.Files.length == 0) then
    .error .errEmptyMessage
  else
    match checkMentions mverify data.AllowedMentions with
    | .error e => .error e
    | .ok _ =>
      match validateEmbedsOpt validate elen APIError.embedErrorAt
          "sum of all text in embeds" data.Embeds with
      | .error e => .error e
      | .ok embeds2 =>
        let data2 : InteractionResponseData E C M Ch F :=
          { data with Embeds := embeds2 }
        .ok (sendpartPOST data2 data2.NeedsMultipart data2.Files
          (EndpointWebhooks ++ toString appID ++ "/" ++ token ++ "?"))

/-- `Client.CreateInteractionFollowup` (deprecated): delegates to
`FollowUpInteraction`. -/
def createInteractionFollowup {E C M Ch F : Type}
    (validate : E → Except String E) (elen : E → Nat)
    (mverify : M → Option String)
    (appID : Nat) (token : String) (data : InteractionResponseData E C M Ch F) :
    Except APIError (SendReq (InteractionResponseData E C M Ch F) F) :=
  followUpInteraction validate elen mverify appID token data

/-- `Client.EditInteractionResponse`: mention policy, embed batch (errors
wrapped WITHOUT the index, `"embed error: %w"`, and the budget `Thing` is
`"sum of text in embeds"`), then PATCH to
`EndpointWebhooks + appID.String() + "/" + token + "/messages/@original"`. -/
def editInteractionResponse {E C M A F : Type}
    (validate : E → Except String E) (elen : E → Nat)
    (mverify : M → Option String)
    (appID : Nat) (token : String) (data : EditInteractionResponseData E C M A F) :
    Except APIError (SendReq (EditInteractionResponseData E C M A F) F) :=
  match checkMentions mverify data.AllowedMentions with
  | .error e => .error e
  | .ok _ =>
    match validateEmbedsOpt validate elen (fun _ c => APIError.embedError c)
        "sum of text in embeds" data.Embeds with
    | .error e => .error e
    | .ok embeds2 =>
      let data2 : EditInteractionResponseData E C M A F :=
        { data with Embeds := embeds2 }
      .ok (sendpartPATCH data2 data2.NeedsMultipart data2.Files
        (EndpointWebhooks ++ toString appID ++ "/" ++ token
          ++ "/messages/@original"))

/-- `Client.EditInteractionFollowup`: same validation as
`EditInteractionResponse`, PATCH to
`EndpointWebhooks + appID.String() + "/" + token + "/messages/" +
messageID.String()`. -/
def editInteractionFollowup {E C M A F : Type}
    (validate : E → Except String E) (elen : E → Nat)
    (mverify : M → Option String)
    (appID : Nat) (messageID : Nat) (token : String)
    (data : EditInteractionResponseData E C M A F) :
    Except APIError (SendReq (EditInteractionResponseData E C M A F) F) :=
  match checkMentions mverify data.AllowedMentions with
  | .error e => .error e
  | .ok _ =>
    match validateEmbedsOpt validate elen (fun _ c => APIError.embedError c)
        "sum of text in embeds" data.Embeds with
    | .error e => .error e
    | .ok embeds2 =>
      let data2 : EditInteractionResponseData E C M A F :=
        { data with Embeds := embeds2 }
      .ok (sendpartPATCH data2 data2.NeedsMultipart data2.Files
        (EndpointWebhooks ++ toString appID ++ "/" ++ token
          ++ "/messages/" ++ toString messageID))

/-- The budget skeleton of the embed loop: given the running sum so far and
the list of validated embed lengths still to come, the cumulative sum at the
first point where it strictly exceeds 6000, or `none` when it never does. -/
def firstOver (s : Nat) : List Nat → Option Nat
  | [] => none
  | n :: rest => if 6000 < s + n then some (s + n) else firstOver (s + n) rest

/-- Pointwise successful validation: `ValidatesTo validate l l2` holds when
each element of `l` validates successfully and `l2` is the list of the
(possibly normalized) outputs, index by index. -/
inductive ValidatesTo {E : Type} (validate : E → Except String E) :
    List E → List E → Prop where
  | nil : ValidatesTo validate [] []
  | cons {e e2 : E} {l l2 : List E} : validate e = Except.ok e2 →
      ValidatesTo validate l l2 → ValidatesTo validate (e :: l) (e2 :: l2)

/-- The element list of an optional embeds slice (empty for the nil
pointer). -/
def embedsListOf {E : Type} : Option (GoSlice E) → List E
  | none => []
  | some s => s.toList

/-- Replacing the elements of an optional embeds slice, preserving both the
nil pointer and the nil-slice/non-nil-slice distinction. -/
def updateEmbeds {E : Type} (o : Option (GoSlice E)) (l : List E) :
    Option (GoSlice E) :=
  match o with
  | none => none
  | some s => some (s.writeBack l)

/-- Concrete embed model for witnesses: an embed is its length, the
validator accepts it unchanged. -/
def vOK : Nat → Except String Nat := fun e => .ok e

/-- Concrete embed validator for counterexamples: always fails with cause
`"boom"`. -/
def vBad : Nat → Except String Nat := fun _ => .error "boom"

/-- Concrete length metric for witnesses: the embed is its own length. -/
def lenId : Nat → Nat := fun n => n

/-- Concrete mention policy model that always verifies. -/
def mvOK : Unit → Option String := fun _ => none

/-- Concrete mention policy model that fails with cause `"bad mentions"`. -/
def mvBad : Unit → Option String := fun _ => some "bad mentions"

/-- A response-data payload with every field at its zero value (all
pointers nil, no files). -/
def emptyData : InteractionResponseData Nat Unit Unit Unit Nat :=
  { Content := none, TTS := false, Embeds := none, Components := none,
    AllowedMentions := none, Flags := 0, Files := [], Choices := none,
    CustomID := none, Title := none }

/-- The probe of claim C1: content explicitly present-but-cleared
(`Init = false`), embeds a non-nil pointer to the EMPTY NON-NIL list
(`[]discord.Embed{}`), no files. -/
def updateEmptyProbe : InteractionResponseData Nat Unit Unit Unit Nat :=
  { emptyData with Content := some ⟨"", false⟩,
                   Embeds := some (GoSlice.lit []) }

/-- The payload that DOES trigger the UpdateMessage emptiness error:
content explicitly null, embeds a non-nil pointer to the NIL slice. -/
def updateNilProbe : InteractionResponseData Nat Unit Unit Unit Nat :=
  { emptyData with Content := some ⟨"", false⟩,
                   Embeds := some GoSlice.nil }

/-- A non-empty new-message payload (content `"hi"`). -/
def contentProbe : InteractionResponseData Nat Unit Unit Unit Nat :=
  { emptyData with Content := some ⟨"hi", true⟩ }

/-- A payload with content plus one embed, used to probe the embed stage. -/
def oneEmbedProbe : InteractionResponseData Nat Unit Unit Unit Nat :=
  { emptyData with Content := some ⟨"hi", true⟩,
                   Embeds := some (GoSlice.lit [10, 20]) }

/-- A payload with two embeds of validated lengths 4000 and 3000. -/
def budgetProbe : InteractionResponseData Nat Unit Unit Unit Nat :=
  { emptyData with Content := some ⟨"hi", true⟩,
                   Embeds := some (GoSlice.lit [4000, 3000]) }

/-- A payload whose embeds sum to exactly 6000. -/
def budget6000Probe : InteractionResponseData Nat Unit Unit Unit Nat :=
  { emptyData with Content := some ⟨"hi", true⟩,
                   Embeds := some (GoSlice.lit [4000, 2000]) }

/-- An edit payload with all pointers nil. -/
def emptyEdit : EditInteractionResponseData Nat Unit Unit Unit Nat :=
  { Content := none, Embeds := none, Components := none,
    AllowedMentions := none, Attachments := none, Files := [] }

/-- An edit payload carrying two embeds, used to probe the embed stage of
the edit operations. -/
def editProbe : EditInteractionResponseData Nat Unit Unit Unit Nat :=
  { emptyEdit with Embeds := some (GoSlice.lit [10, 20]) }

/-- Concrete embed validator that rejects embeds of length 1000 or more
and accepts the rest unchanged. -/
def vFailBig : Nat → Except String Nat :=
  fun e => if 1000 ≤ e then .error "too big" else .ok e

/-- A payload whose embed at index 1 is rejected by `vFailBig` while the
embed at index 0 passes. -/
def bigEmbedProbe : InteractionResponseData Nat Unit Unit Unit Nat :=
  { emptyData with Content := some ⟨"hi", true⟩,
                   Embeds := some (GoSlice.lit [10, 2000, 5]) }

/-- The edit payload with the same embed list as `bigEmbedProbe`. -/
def bigEmbedEditProbe : EditInteractionResponseData Nat Unit Unit Unit Nat :=
  { emptyEdit with Embeds := some (GoSlice.lit [10, 2000, 5]) }

theorem checkMentions_error_shape {M : Type} {mverify : M → Option String}
    {am : Option M} {e : APIError} (h : checkMentions mverify am = .error e) :
    ∃ c, e = .allowedMentionsError c := by
  cases am with
  | none => simp [checkMentions] at h
  | some m =>
    cases hm : mverify m with
    | none => simp [checkMentions, hm] at h
    | some c =>
      simp [checkMentions, hm] at h
      exact ⟨c, h.symm⟩

theorem embedLoop_error_shape {E : Type} {validate : E → Except String E}
    {elen : E → Nat} {mkErr : Nat → String → APIError} {thing : String}
    {es : List E} {i s : Nat} {e : APIError}
    (h : embedLoop validate elen mkErr thing i s es = .error e) :
    (∃ j c, e = mkErr j c) ∨ ∃ n, e = .overboundError n 6000 thing := by
  induction es generalizing i s with
  | nil => simp [embedLoop] at h
  | cons x rest ih =>
    rw [embedLoop] at h
    cases hv : validate x with
    | error c =>
      rw [hv] at h
      exact Or.inl ⟨i, c, (Except.error.injEq _ _).mp h |>.symm⟩
    | ok x2 =>
      rw [hv] at h
      simp only at h
      by_cases hb : 6000 < s + elen x2
      · rw [if_pos hb] at h
        exact Or.inr ⟨s + elen x2, (Except.error.injEq _ _).mp h |>.symm⟩
      · rw [if_neg hb] at h
        cases hr : embedLoop validate elen mkErr thing (i + 1) (s + elen x2) rest with
        | error e2 =>
          rw [hr] at h
          cases h
          exact ih hr
        | ok l2 => rw [hr] at h; cases h

theorem validateEmbedsOpt_error_shape {E : Type}
    {validate : E → Except String E} {elen : E → Nat}
    {mkErr : Nat → String → APIError} {thing : String}
    {o : Option (GoSlice E)} {e : APIError}
    (h : validateEmbedsOpt validate elen mkErr thing o = .error e) :
    (∃ j c, e = mkErr j c) ∨ ∃ n, e = .overboundError n 6000 thing := by
  cases o with
  | none => simp [validateEmbedsOpt] at h
  | some s =>
    rw [validateEmbedsOpt] at h
    cases hr : embedLoop validate elen mkErr thing 0 0 s.toList with
    | error e2 =>
      rw [hr] at h
      cases h
      exact embedLoop_error_shape hr
    | ok l2 => rw [hr] at h; cases h

theorem respondEmptinessCheck_error_shape {E C M Ch F : Type}
    {ty : InteractionResponseType} {d : InteractionResponseData E C M Ch F}
    {e : APIError} (h : respondEmptinessCheck ty d = .error e) :
    e = .errEmptyMessage := by
  rw [respondEmptinessCheck] at h
  split at h
  · split at h
    · exact ((Except.error.injEq _ _).mp h).symm
    · cases h
  · split at h
    · split at h
      · exact ((Except.error.injEq _ _).mp h).symm
      · cases h
    · cases h

theorem embedLoop_of_validatesTo {E : Type} {validate : E → Except String E}
    (elen : E → Nat) (mkErr : Nat → String → APIError) (thing : String)
    {l l2 : List E} (hv : ValidatesTo validate l l2) (i s : Nat) :
    embedLoop validate elen mkErr thing i s l =
      match firstOver s (l2.map elen) with
      | some n => .error (.overboundError n 6000 thing)
      | none => .ok l2 := by
  induction hv generalizing i s with
  | nil => simp [embedLoop, firstOver]
  | @cons e e2 l0 l02 he _ ih =>
    rw [embedLoop, he]
    simp only [List.map_cons, firstOver]
    by_cases hb : 6000 < s + elen e2
    · rw [if_pos hb, if_pos hb]
    · rw [if_neg hb, if_neg hb, ih]
      cases firstOver (s + elen e2) (l02.map elen) <;> simp

theorem embedLoop_ok_validatesTo {E : Type} {validate : E → Except String E}
    {elen : E → Nat} {mkErr : Nat → String → APIError} {thing : String}
    {l l2 : List E} {i s : Nat}
    (h : embedLoop validate elen mkErr thing i s l = .ok l2) :
    ValidatesTo validate l l2 := by
  induction l generalizing i s l2 with
  | nil =>
    rw [embedLoop] at h
    cases h
    exact .nil
  | cons x rest ih =>
    rw [embedLoop] at h
    cases hv : validate x with
    | error c => rw [hv] at h; cases h
    | ok x2 =>
      rw [hv] at h
      simp only at h
      by_cases hb : 6000 < s + elen x2
      · rw [if_pos hb] at h; cases h
      · rw [if_neg hb] at h
        cases hr : embedLoop validate elen mkErr thing (i + 1) (s + elen x2) rest with
        | error e2 => rw [hr] at h; cases h
        | ok r2 =>
          rw [hr] at h
          cases h
          exact .cons hv (ih hr)

theorem embedLoop_first_failure {E : Type} {validate : E → Except String E}
    (elen : E → Nat) (mkErr : Nat → String → APIError) (thing : String)
    {pre pre2 : List E} (hpre : ValidatesTo validate pre pre2)
    {bad : E} {c : String} (hbad : validate bad = .error c)
    (suf : List E) (i s : Nat)
    (hbudget : firstOver s (pre2.map elen) = none) :
    embedLoop validate elen mkErr thing i s (pre ++ bad :: suf) =
      .error (mkErr (i + pre.length) c) := by
  induction hpre generalizing i s with
  | nil => rw [List.nil_append, embedLoop, hbad]; rfl
  | @cons e e2 l0 l02 he _ ih =>
    rw [List.cons_append, embedLoop, he]
    simp only [List.map_cons, firstOver] at hbudget
    by_cases hb : 6000 < s + elen e2
    · rw [if_pos hb] at hbudget; cases hbudget
    · rw [if_neg hb] at hbudget
      simp only
      rw [if_neg hb, ih (i + 1) (s + elen e2) hbudget]
      have harith : i + 1 + l0.length = i + (e :: l0).length := by
        simp only [List.length_cons]
        omega
      rw [harith]

theorem embedLoop_suffix_independent {E : Type}
    {validate : E → Except String E} (elen : E → Nat)
    (mkErr : Nat → String → APIError) (thing : String)
    (pre : List E) {bad : E} {c : String} (hbad : validate bad = .error c)
    (suf1 suf2 : List E) (i s : Nat) :
    embedLoop validate elen mkErr thing i s (pre ++ bad :: suf1) =
      embedLoop validate elen mkErr thing i s (pre ++ bad :: suf2) := by
  induction pre generalizing i s with
  | nil => rw [List.nil_append, List.nil_append, embedLoop, embedLoop, hbad]
  | cons x rest ih =>
    rw [List.cons_append, List.cons_append, embedLoop, embedLoop]
    cases hv : validate x with
    | error c2 => rfl
    | ok x2 =>
      simp only
      by_cases hb : 6000 < s + elen x2
      · rw [if_pos hb, if_pos hb]
      · rw [if_neg hb, if_neg hb, ih (i + 1) (s + elen x2)]

theorem ValidatesTo.length_eq {E : Type} {validate : E → Except String E}
    {l l2 : List E} (h : ValidatesTo validate l l2) : l2.length = l.length := by
  induction h with
  | nil => rfl
  | cons _ _ ih => simp [ih]

theorem validateEmbedsOpt_ok {E : Type} {validate : E → Except String E}
    {elen : E → Nat} {mkErr : Nat → String → APIError} {thing : String}
    {o o2 : Option (GoSlice E)}
    (h : validateEmbedsOpt validate elen mkErr thing o = .ok o2) :
    ∃ l2, ValidatesTo validate (embedsListOf o) l2 ∧ o2 = updateEmbeds o l2 := by
  cases o with
  | none =>
    rw [validateEmbedsOpt] at h
    cases h
    exact ⟨[], .nil, rfl⟩
  | some s =>
    rw [validateEmbedsOpt] at h
    cases hr : embedLoop validate elen mkErr thing 0 0 s.toList with
    | error e => rw [hr] at h; cases h
    | ok l2 =>
      rw [hr] at h
      cases h
      exact ⟨l2, embedLoop_ok_validatesTo hr, rfl⟩

theorem respondValidate_empty_iff {E C M Ch F : Type}
    (validate : E → Except String E) (elen : E → Nat)
    (mverify : M → Option String) (ty : InteractionResponseType)
    (d : InteractionResponseData E C M Ch F) :
    respondValidate validate elen mverify ty d = .error .errEmptyMessage ↔
      respondEmptinessCheck ty d = .error .errEmptyMessage := by
  constructor
  · intro h
    rw [respondValidate] at h
    split at h
    · rename_i e heq
      cases h
      exact heq
    · split at h
      · rename_i e2 heq2
        cases h
        obtain ⟨c, hc⟩ := checkMentions_error_shape heq2
        cases hc
      · split at h
        · rename_i e3 heq3
          cases h
          rcases validateEmbedsOpt_error_shape heq3 with ⟨j, c, hc⟩ | ⟨n, hc⟩ <;>
            cases hc
        · cases h
  · intro h
    rw [respondValidate, h]

theorem respondEmptinessCheck_update_iff {E C M Ch F : Type}
    (d : InteractionResponseData E C M Ch F) :
    respondEmptinessCheck UpdateMessage d = .error .errEmptyMessage ↔
      contentPresentUninit d.Content = true ∧ embedsPresentNil d.Embeds = true
        ∧ d.Files = [] := by
  rw [respondEmptinessCheck,
    if_neg (by decide : ¬(UpdateMessage = MessageInteractionWithSource)),
    if_pos rfl]
  by_cases hb : (contentPresentUninit d.Content && embedsPresentNil d.Embeds
      && (d.Files.length == 0)) = true
  · rw [if_pos hb]
    simp only [Bool.and_eq_true, beq_iff_eq, List.length_eq_zero] at hb
    simp [hb.1.1, hb.1.2, hb.2]
  · rw [if_neg hb]
    simp only [Bool.and_eq_true, beq_iff_eq, List.length_eq_zero] at hb
    constructor
    · intro h; cases h
    · intro h
      exact absurd ⟨⟨h.1, h.2.1⟩, h.2.2⟩ hb

theorem respondEmptinessCheck_new_iff {E C M Ch F : Type}
    (d : InteractionResponseData E C M Ch F) :
    respondEmptinessCheck MessageInteractionWithSource d
        = .error .errEmptyMessage ↔
      contentNilOrEmpty d.Content = true ∧ embedsNilOrEmpty d.Embeds = true
        ∧ d.Files = [] := by
  rw [respondEmptinessCheck, if_pos rfl]
  by_cases hb : (contentNilOrEmpty d.Content && embedsNilOrEmpty d.Embeds
      && (d.Files.length == 0)) = true
  · rw [if_pos hb]
    simp only [Bool.and_eq_true, beq_iff_eq, List.length_eq_zero] at hb
    simp [hb.1.1, hb.1.2, hb.2]
  · rw [if_neg hb]
    simp only [Bool.and_eq_true, beq_iff_eq, List.length_eq_zero] at hb
    constructor
    · intro h; cases h
    · intro h
      exact absurd ⟨⟨h.1, h.2.1⟩, h.2.2⟩ hb

theorem contentNilOrEmpty_iff (c? : NullableString) :
    contentNilOrEmpty c? = true ↔ ¬∃ c, c? = some c ∧ c.Val ≠ "" := by
  cases c? <;> simp [contentNilOrEmpty]

theorem embedsNilOrEmpty_iff {E : Type} (o : Option (GoSlice E)) :
    embedsNilOrEmpty o = true ↔ ¬∃ s, o = some s ∧ s.len ≠ 0 := by
  cases o <;> simp [embedsNilOrEmpty]

theorem followUp_empty_iff {E C M Ch F : Type}
    (validate : E → Except String E) (elen : E → Nat)
    (mverify : M → Option String) (appID : Nat) (token : String)
    (d : InteractionResponseData E C M Ch F) :
    followUpInteraction validate elen mverify appID token d
        = .error .errEmptyMessage ↔
      contentNilOrEmpty d.Content = true ∧ embedsNilOrEmpty d.Embeds = true
        ∧ d.Files = [] := by
  rw [followUpInteraction]
  by_cases hb : (contentNilOrEmpty d.Content && embedsNilOrEmpty d.Embeds
      && (d.Files.length == 0)) = true
  · rw [if_pos hb]
    simp only [Bool.and_eq_true, beq_iff_eq, List.length_eq_zero] at hb
    simp [hb.1.1, hb.1.2, hb.2]
  · rw [if_neg hb]
    simp only [Bool.and_eq_true, beq_iff_eq, List.length_eq_zero] at hb
    constructor
    · intro h
      split at h
      · rename_i e2 heq2
        cases h
        obtain ⟨c, hc⟩ := checkMentions_error_shape heq2
        cases hc
      · split at h
        · rename_i e3 heq3
          cases h
          rcases validateEmbedsOpt_error_shape heq3 with ⟨j, c, hc⟩ | ⟨n, hc⟩ <;>
            cases hc
        · cases h
    · intro h
      exact absurd ⟨⟨h.1, h.2.1⟩, h.2.2⟩ hb

theorem respondInteraction_some_eq {E C M Ch F : Type}
    (validate : E → Except String E) (elen : E → Nat)
    (mverify : M → Option String) (id : Nat) (token : String)
    (ty : InteractionResponseType) (d : InteractionResponseData E C M Ch F) :
    respondInteraction validate elen mverify id token ⟨ty, some d⟩ =
      match respondValidate validate elen mverify ty d with
      | .error e => .error e
      | .ok d2 =>
        .ok (sendpartPOST (⟨ty, some d2⟩ : InteractionResponse E C M Ch F)
          (InteractionResponse.NeedsMultipart ⟨ty, some d2⟩) d2.Files
          (EndpointInteractions ++ toString id ++ "/" ++ token ++ "/callback")) :=
  rfl

theorem respondInteraction_error_iff {E C M Ch F : Type}
    (validate : E → Except String E) (elen : E → Nat)
    (mverify : M → Option String) (id : Nat) (token : String)
    (ty : InteractionResponseType) (d : InteractionResponseData E C M Ch F)
    (e : APIError) :
    respondInteraction validate elen mverify id token ⟨ty, some d⟩
        = .error e ↔
      respondValidate validate elen mverify ty d = .error e := by
  rw [respondInteraction_some_eq]
  cases h : respondValidate validate elen mverify ty d <;> simp

theorem respondEmptinessCheck_ok_of_embeds {E C M Ch F : Type}
    (ty : InteractionResponseType) (d : InteractionResponseData E C M Ch F)
    (h1 : embedsNilOrEmpty d.Embeds = false)
    (h2 : embedsPresentNil d.Embeds = false) :
    respondEmptinessCheck ty d = .ok () := by
  rw [respondEmptinessCheck]
  split
  · rw [if_neg (by simp [h1])]
  · split
    · rw [if_neg (by simp [h2])]
    · rfl

theorem validateEmbedsOpt_first_failure {E : Type}
    {validate : E → Except String E} (elen : E → Nat)
    (mkErr : Nat → String → APIError) (thing : String)
    {pre pre2 : List E} (hpre : ValidatesTo validate pre pre2)
    {bad : E} {c : String} (hbad : validate bad = .error c) (suf : List E)
    (hbudget : firstOver 0 (pre2.map elen) = none) :
    validateEmbedsOpt validate elen mkErr thing
        (some (GoSlice.lit (pre ++ bad :: suf))) = .error (mkErr pre.length c) := by
  rw [validateEmbedsOpt]
  rw [show (GoSlice.lit (pre ++ bad :: suf)).toList = pre ++ bad :: suf from rfl]
  rw [embedLoop_first_failure elen mkErr thing hpre hbad suf 0 0 hbudget]
  simp

theorem respondValidate_ok {E C M Ch F : Type}
    {validate : E → Except String E} {elen : E → Nat}
    {mverify : M → Option String} {ty : InteractionResponseType}
    {d d2 : InteractionResponseData E C M Ch F}
    (h : respondValidate validate elen mverify ty d = .ok d2) :
    ∃ embeds2, validateEmbedsOpt validate elen APIError.embedErrorAt
        "sum of all text in embeds" d.Embeds = .ok embeds2 ∧
      d2 = { d with Embeds := embeds2 } := by
  rw [respondValidate] at h
  split at h
  · cases h
  · split at h
    · cases h
    · split at h
      · cases h
      · rename_i embeds2 heq
        cases h
        exact ⟨embeds2, heq, rfl⟩

/-- C1 (counterexample): the claim says that for UpdateMessage with content
explicitly present-but-cleared, embeds a pointer to the EMPTY NON-NIL list
`[]discord.Embed{}`, and no files, RespondInteraction fails with
EmptyPayloadError.  It does not: the source tests `*resp.Data.Embeds == nil`,
and the empty non-nil slice is not the nil slice, so the call proceeds to
the network request. -/
theorem C1_counterexample :
    respondInteraction vOK lenId mvOK 1 "tok"
        { type := UpdateMessage, Data := some updateEmptyProbe }
      ≠ .error .errEmptyMessage :=
  fun h => Except.noConfusion h

/-- C1 (amended): for RespondInteraction with response type UpdateMessage
and Data non-nil, the call fails with EmptyPayloadError exactly when content
is explicitly present-but-cleared (pointer non-nil with the Init flag
false), embeds is a non-nil pointer to the NIL slice (a pointer to the
empty non-nil list `[]discord.Embed{}` does NOT count), and the file list
is empty; if content or embeds are omitted entirely (nil pointers), no
emptiness error is raised regardless of files. -/
theorem C1_update_message_empty_iff {E C M Ch F : Type}
    (validate : E → Except String E) (elen : E → Nat)
    (mverify : M → Option String) (id : Nat) (token : String)
    (d : InteractionResponseData E C M Ch F) :
    respondInteraction validate elen mverify id token
        { type := UpdateMessage, Data := some d } = .error .errEmptyMessage ↔
      contentPresentUninit d.Content = true ∧ embedsPresentNil d.Embeds = true
        ∧ d.Files = [] := by
  rw [respondInteraction_error_iff, respondValidate_empty_iff,
    respondEmptinessCheck_update_iff]

/-- C1 witness: with content explicitly null and embeds a pointer to the
NIL slice, the amended condition holds and the call does fail with
ErrEmptyMessage. -/
theorem C1_update_message_empty_iff_witness :
    respondInteraction vOK lenId mvOK 1 "tok"
        { type := UpdateMessage, Data := some updateNilProbe }
      = .error .errEmptyMessage :=
  (C1_update_message_empty_iff vOK lenId mvOK 1 "tok"
    updateNilProbe).mpr ⟨rfl, rfl, rfl⟩

/-- C2 (counterexample): FollowUpInteraction does not issue its request to
exactly `webhooks/{appID}/{token}`: the source appends a literal question
mark after the token, so the URL string is
`webhooks/{appID}/{token}?` and differs from the claimed shape. -/
theorem C2_counterexample :
    followUpInteraction vOK lenId mvOK 1 "tok" contentProbe =
        .ok (sendpartPOST contentProbe false []
          (EndpointWebhooks ++ toString (1 : Nat) ++ "/" ++ "tok" ++ "?")) ∧
      EndpointWebhooks ++ toString (1 : Nat) ++ "/" ++ "tok" ++ "?" ≠
        EndpointWebhooks ++ toString (1 : Nat) ++ "/" ++ "tok" := by
  exact ⟨rfl, by decide⟩

/-- C2 (amended): every request FollowUpInteraction issues goes to
`EndpointWebhooks ++ appID ++ "/" ++ token ++ "?"` — the application ID and
token inserted literally in canonical string form, with a single literal
question mark (an empty query string) appended after the token and nothing
else — using method POST. -/
theorem C2_followup_url {E C M Ch F : Type}
    (validate : E → Except String E) (elen : E → Nat)
    (mverify : M → Option String) (appID : Nat) (token : String)
    (data : InteractionResponseData E C M Ch F)
    (req : SendReq (InteractionResponseData E C M Ch F) F)
    (h : followUpInteraction validate elen mverify appID token data = .ok req) :
    req.url = EndpointWebhooks ++ toString appID ++ "/" ++ token ++ "?" ∧
      req.method = "POST" := by
  rw [followUpInteraction] at h
  split at h
  · cases h
  · split at h
    · cases h
    · split at h
      · cases h
      · cases h
        exact ⟨rfl, rfl⟩

/-- C2 witness: the amended URL shape at a concrete successful call. -/
theorem C2_followup_url_witness :
    (sendpartPOST contentProbe false ([] : List Nat)
        (EndpointWebhooks ++ toString (1 : Nat) ++ "/" ++ "tok" ++ "?")).url
      = EndpointWebhooks ++ toString (1 : Nat) ++ "/" ++ "tok" ++ "?" :=
  (C2_followup_url vOK lenId mvOK 1 "tok" contentProbe _ rfl).1

/-- C9: when `resp.Data` is nil, RespondInteraction performs no validation
at all, for every response type: it proceeds directly to the network call
(the returned request) and can never return ErrEmptyMessage or any other
validation error. -/
theorem C9_nil_data_skips_validation {E C M Ch F : Type}
    (validate : E → Except String E) (elen : E → Nat)
    (mverify : M → Option String) (id : Nat) (token : String)
    (ty : InteractionResponseType) :
    respondInteraction validate elen mverify id token
        (⟨ty, none⟩ : InteractionResponse E C M Ch F) =
      .ok (sendpartPOST (⟨ty, none⟩ : InteractionResponse E C M Ch F) false []
        (EndpointInteractions ++ toString id ++ "/" ++ token ++ "/callback")) ∧
    ∀ e : APIError, respondInteraction validate elen mverify id token
        (⟨ty, none⟩ : InteractionResponse E C M Ch F) ≠ .error e :=
  ⟨rfl, fun _ h => Except.noConfusion h⟩

/-- C9 witness: concrete nil-Data call with the new-message response type
returns the unvalidated request. -/
theorem C9_nil_data_skips_validation_witness :
    respondInteraction vOK lenId mvOK 1 "tok"
        (⟨MessageInteractionWithSource, none⟩ :
          InteractionResponse Nat Unit Unit Unit Nat) =
      .ok (sendpartPOST
        (⟨MessageInteractionWithSource, none⟩ :
          InteractionResponse Nat Unit Unit Unit Nat) false []
        (EndpointInteractions ++ toString (1 : Nat) ++ "/" ++ "tok"
          ++ "/callback")) :=
  (C9_nil_data_skips_validation vOK lenId mvOK 1 "tok"
    MessageInteractionWithSource).1

/-- C10: CreateInteractionFollowup is a pure alias of FollowUpInteraction:
for all inputs it returns exactly the same result. -/
theorem C10_create_followup_alias {E C M Ch F : Type}
    (validate : E → Except String E) (elen : E → Nat)
    (mverify : M → Option String) (appID : Nat) (token : String)
    (data : InteractionResponseData E C M Ch F) :
    createInteractionFollowup validate elen mverify appID token data =
      followUpInteraction validate elen mverify appID token data :=
  rfl

/-- C4: for the new-message operations (RespondInteraction with type
MessageInteractionWithSource and Data non-nil, and FollowUpInteraction),
the call fails with ErrEmptyMessage precisely unless at least one of the
following holds: content is set (pointer non-nil) to a non-empty string,
the embed list is a non-nil pointer to a list of non-zero length, or the
file list is non-empty; content set to the empty string counts as unset. -/
theorem C4_new_message_empty_iff {E C M Ch F : Type}
    (validate : E → Except String E) (elen : E → Nat)
    (mverify : M → Option String) (iid appID : Nat) (token : String)
    (d : InteractionResponseData E C M Ch F) :
    (respondInteraction validate elen mverify iid token
        ⟨MessageInteractionWithSource, some d⟩ = .error .errEmptyMessage ↔
      ¬((∃ c, d.Content = some c ∧ c.Val ≠ "") ∨
        (∃ s, d.Embeds = some s ∧ s.len ≠ 0) ∨ d.Files ≠ [])) ∧
    (followUpInteraction validate elen mverify appID token d
        = .error .errEmptyMessage ↔
      ¬((∃ c, d.Content = some c ∧ c.Val ≠ "") ∨
        (∃ s, d.Embeds = some s ∧ s.len ≠ 0) ∨ d.Files ≠ [])) := by
  have hbridge :
      (contentNilOrEmpty d.Content = true ∧ embedsNilOrEmpty d.Embeds = true
          ∧ d.Files = []) ↔
        ¬((∃ c, d.Content = some c ∧ c.Val ≠ "") ∨
          (∃ s, d.Embeds = some s ∧ s.len ≠ 0) ∨ d.Files ≠ []) := by
    rw [contentNilOrEmpty_iff, embedsNilOrEmpty_iff]
    simp [not_or]
  constructor
  · rw [respondInteraction_error_iff, respondValidate_empty_iff,
      respondEmptinessCheck_new_iff]
    exact hbridge
  · rw [followUp_empty_iff]
    exact hbridge

/-- C4 witness: the all-empty payload (content nil, embeds nil, no files)
fails FollowUpInteraction with ErrEmptyMessage. -/
theorem C4_new_message_empty_iff_witness :
    followUpInteraction vOK lenId mvOK 1 "tok" emptyData
      = .error .errEmptyMessage :=
  ((C4_new_message_empty_iff vOK lenId mvOK 1 1 "tok" emptyData).2).mpr
    (by simp [emptyData])

/-- C3 (counterexample): the claim includes EditInteractionResponse among
the operations whose per-embed failure carries the 0-based index.  It does
not: the source wraps the cause as `fmt.Errorf("embed error: %w", err)`
with no index, so the failure at index 0 of this concrete payload comes
back as the index-less `embedError`, not `embedErrorAt 0`. -/
theorem C3_counterexample :
    editInteractionResponse vBad lenId mvOK 1 "tok" editProbe
        = .error (.embedError "boom") ∧
      (APIError.embedError "boom") ≠ (APIError.embedErrorAt 0 "boom") :=
  ⟨rfl, by decide⟩

/-- C3 (amended): when the embed at position `pre.length` is the first to
fail its own structural validation (every earlier embed validates and the
running budget stays within 6000), RespondInteraction and
FollowUpInteraction return the wrapped cause TAGGED WITH the 0-based index,
while EditInteractionResponse and EditInteractionFollowup return the
wrapped cause WITHOUT an index; in all four operations processing stops at
the first failure: the embed loop result does not depend on the embeds
after the failing one. -/
theorem C3_first_embed_failure {E C M Ch F A : Type}
    (validate : E → Except String E) (elen : E → Nat)
    (mverify : M → Option String) (appID messageID : Nat) (token : String)
    (pre pre2 suf suf2 : List E) (bad : E) (c : String)
    (ty : InteractionResponseType)
    (d : InteractionResponseData E C M Ch F)
    (ed : EditInteractionResponseData E C M A F)
    (hpre : ValidatesTo validate pre pre2)
    (hbad : validate bad = .error c)
    (hbudget : firstOver 0 (pre2.map elen) = none)
    (hembd : d.Embeds = some (GoSlice.lit (pre ++ bad :: suf)))
    (hembed : ed.Embeds = some (GoSlice.lit (pre ++ bad :: suf)))
    (hmd : checkMentions mverify d.AllowedMentions = .ok ())
    (hme : checkMentions mverify ed.AllowedMentions = .ok ()) :
    respondInteraction validate elen mverify appID token ⟨ty, some d⟩
        = .error (.embedErrorAt pre.length c) ∧
    followUpInteraction validate elen mverify appID token d
        = .error (.embedErrorAt pre.length c) ∧
    editInteractionResponse validate elen mverify appID token ed
        = .error (.embedError c) ∧
    editInteractionFollowup validate elen mverify appID messageID token ed
        = .error (.embedError c) ∧
    (∀ (mkErr : Nat → String → APIError) (thing : String) (i s : Nat),
      embedLoop validate elen mkErr thing i s (pre ++ bad :: suf) =
        embedLoop validate elen mkErr thing i s (pre ++ bad :: suf2)) := by
  have hvr := validateEmbedsOpt_first_failure elen APIError.embedErrorAt
    "sum of all text in embeds" hpre hbad suf hbudget
  have hve := validateEmbedsOpt_first_failure elen
    (fun _ c2 => APIError.embedError c2) "sum of text in embeds" hpre hbad
    suf hbudget
  have hne : embedsNilOrEmpty d.Embeds = false := by
    rw [hembd]
    simp [embedsNilOrEmpty, GoSlice.len, GoSlice.toList]
  have hnp : embedsPresentNil d.Embeds = false := by
    rw [hembd]
    simp [embedsPresentNil]
  refine ⟨?_, ?_, ?_, ?_, ?_⟩
  · rw [respondInteraction_some_eq, respondValidate,
      respondEmptinessCheck_ok_of_embeds ty d hne hnp, hmd, hembd, hvr]
  · rw [followUpInteraction, if_neg (by simp [hne]), hmd, hembd, hvr]
  · rw [editInteractionResponse, hme, hembed, hve]
  · rw [editInteractionFollowup, hme, hembed, hve]
  · intro mkErr thing i s
    exact embedLoop_suffix_independent elen mkErr thing pre hbad suf suf2 i s

/-- C3 witness: with embeds `[10, 2000, 5]` under a validator rejecting
lengths of 1000 and more, FollowUpInteraction blames index 1. -/
theorem C3_first_embed_failure_witness :
    followUpInteraction vFailBig lenId mvOK 1 "tok" bigEmbedProbe
      = .error (.embedErrorAt 1 "too big") :=
  (C3_first_embed_failure vFailBig lenId mvOK 1 1 "tok" [10] [10] [5] []
    2000 "too big" MessageInteractionWithSource bigEmbedProbe
    bigEmbedEditProbe (.cons rfl .nil) rfl rfl rfl rfl rfl rfl).2.1

/-- C5: the embed loop of every operation accumulates the validated length
of each embed in list order and, right after each embed validates, fails
with `OverboundError{count := theRunningSum, max := 6000}` at the first
embed that pushes the running sum strictly over 6000, and otherwise
succeeds; concretely, lengths 4000 then 3000 fail at index 1 with count
7000, while a list summing to exactly 6000 passes. -/
theorem C5_embed_budget {E : Type}
    (validate : E → Except String E) (elen : E → Nat)
    (mkErr : Nat → String → APIError) (thing : String)
    (l l2 : List E) (hv : ValidatesTo validate l l2) :
    (embedLoop validate elen mkErr thing 0 0 l =
      match firstOver 0 (l2.map elen) with
      | some n => .error (.overboundError n 6000 thing)
      | none => .ok l2) ∧
    followUpInteraction vOK lenId mvOK 1 "tok" budgetProbe
        = .error (.overboundError 7000 6000 "sum of all text in embeds") ∧
    (followUpInteraction vOK lenId mvOK 1 "tok" budget6000Probe).isOk
        = true :=
  ⟨embedLoop_of_validatesTo elen mkErr thing hv 0 0, rfl, rfl⟩

/-- C5 witness: the general budget characterization evaluated at the
concrete 4000/3000 list. -/
theorem C5_embed_budget_witness :
    embedLoop vOK lenId APIError.embedErrorAt "sum of all text in embeds"
        0 0 [4000, 3000] =
      match firstOver 0 ([4000, 3000].map lenId) with
      | some n => .error (.overboundError n 6000 "sum of all text in embeds")
      | none => .ok [4000, 3000] :=
  (C5_embed_budget vOK lenId APIError.embedErrorAt
    "sum of all text in embeds" [4000, 3000] [4000, 3000]
    (.cons rfl (.cons rfl .nil))).1

/-- C6: validation runs in the fixed order emptiness check → mention
policy → embed batch → transport, for RespondInteraction (with Data
non-nil) and FollowUpInteraction.  When a payload would fail several
checks, the earliest failing check in that order determines the returned
error; only when every check passes is a request constructed (an `.error`
result carries no `SendReq`, so every validation failure is returned
before any network call is issued). -/
theorem C6_validation_order {E C M Ch F A : Type}
    (validate : E → Except String E) (elen : E → Nat)
    (mverify : M → Option String) (iid appID messageID : Nat) (token : String)
    (ty : InteractionResponseType) (d : InteractionResponseData E C M Ch F)
    (ed : EditInteractionResponseData E C M A F) :
    (∀ e, respondEmptinessCheck ty d = .error e →
      respondInteraction validate elen mverify iid token ⟨ty, some d⟩
        = .error e) ∧
    (∀ e, respondEmptinessCheck ty d = .ok () →
      checkMentions mverify d.AllowedMentions = .error e →
      respondInteraction validate elen mverify iid token ⟨ty, some d⟩
        = .error e) ∧
    (∀ e, respondEmptinessCheck ty d = .ok () →
      checkMentions mverify d.AllowedMentions = .ok () →
      validateEmbedsOpt validate elen APIError.embedErrorAt
          "sum of all text in embeds" d.Embeds = .error e →
      respondInteraction validate elen mverify iid token ⟨ty, some d⟩
        = .error e) ∧
    (∀ embeds2, respondEmptinessCheck ty d = .ok () →
      checkMentions mverify d.AllowedMentions = .ok () →
      validateEmbedsOpt validate elen APIError.embedErrorAt
          "sum of all text in embeds" d.Embeds = .ok embeds2 →
      respondInteraction validate elen mverify iid token ⟨ty, some d⟩ =
        .ok (sendpartPOST
          (⟨ty, some { d with Embeds := embeds2 }⟩ :
            InteractionResponse E C M Ch F)
          (InteractionResponse.NeedsMultipart
            ⟨ty, some { d with Embeds := embeds2 }⟩)
          ({ d with Embeds := embeds2 } :
            InteractionResponseData E C M Ch F).Files
          (EndpointInteractions ++ toString iid ++ "/" ++ token
            ++ "/callback"))) ∧
    ((contentNilOrEmpty d.Content && embedsNilOrEmpty d.Embeds
        && (d.Files.length == 0)) = true →
      followUpInteraction validate elen mverify appID token d
        = .error .errEmptyMessage) ∧
    (∀ e, (contentNilOrEmpty d.Content && embedsNilOrEmpty d.Embeds
        && (d.Files.length == 0)) = false →
      checkMentions mverify d.AllowedMentions = .error e →
      followUpInteraction validate elen mverify appID token d = .error e) ∧
    (∀ e, (contentNilOrEmpty d.Content && embedsNilOrEmpty d.Embeds
        && (d.Files.length == 0)) = false →
      checkMentions mverify d.AllowedMentions = .ok () →
      validateEmbedsOpt validate elen APIError.embedErrorAt
          "sum of all text in embeds" d.Embeds = .error e →
      followUpInteraction validate elen mverify appID token d = .error e) ∧
    (∀ embeds2, (contentNilOrEmpty d.Content && embedsNilOrEmpty d.Embeds
        && (d.Files.length == 0)) = false →
      checkMentions mverify d.AllowedMentions = .ok () →
      validateEmbedsOpt validate elen APIError.embedErrorAt
          "sum of all text in embeds" d.Embeds = .ok embeds2 →
      followUpInteraction validate elen mverify appID token d =
        .ok (sendpartPOST
          ({ d with Embeds := embeds2 } :
            InteractionResponseData E C M Ch F)
          ({ d with Embeds := embeds2 } :
            InteractionResponseData E C M Ch F).NeedsMultipart
          ({ d with Embeds := embeds2 } :
            InteractionResponseData E C M Ch F).Files
          (EndpointWebhooks ++ toString appID ++ "/" ++ token ++ "?"))) ∧
    (∀ e, checkMentions mverify ed.AllowedMentions = .error e →
      editInteractionResponse validate elen mverify appID token ed
          = .error e ∧
      editInteractionFollowup validate elen mverify appID messageID token ed
          = .error e) ∧
    (∀ e, checkMentions mverify ed.AllowedMentions = .ok () →
      validateEmbedsOpt validate elen (fun _ c => APIError.embedError c)
          "sum of text in embeds" ed.Embeds = .error e →
      editInteractionResponse validate elen mverify appID token ed
          = .error e ∧
      editInteractionFollowup validate elen mverify appID messageID token ed
          = .error e) := by
  refine ⟨?_, ?_, ?_, ?_, ?_, ?_, ?_, ?_, ?_, ?_⟩
  · intro e h1
    rw [respondInteraction_some_eq, respondValidate, h1]
  · intro e h1 h2
    rw [respondInteraction_some_eq, respondValidate, h1, h2]
  · intro e h1 h2 h3
    rw [respondInteraction_some_eq, respondValidate, h1, h2, h3]
  · intro embeds2 h1 h2 h3
    rw [respondInteraction_some_eq, respondValidate, h1, h2, h3]
  · intro h
    rw [followUpInteraction, if_pos h]
  · intro e h hm
    rw [followUpInteraction, if_neg (by simp [h]), hm]
  · intro e h hm hv
    rw [followUpInteraction, if_neg (by simp [h]), hm, hv]
  · intro embeds2 h hm hv
    rw [followUpInteraction, if_neg (by simp [h]), hm, hv]
  · intro e hm
    constructor
    · rw [editInteractionResponse, hm]
    · rw [editInteractionFollowup, hm]
  · intro e hm hv
    constructor
    · rw [editInteractionResponse, hm, hv]
    · rw [editInteractionFollowup, hm, hv]

/-- C6 witness: an all-empty new-message payload fails the emptiness check
first, and the operation returns exactly that error. -/
theorem C6_validation_order_witness :
    respondInteraction vOK lenId mvOK 1 "tok"
        ⟨MessageInteractionWithSource, some emptyData⟩
      = .error .errEmptyMessage :=
  (C6_validation_order vOK lenId mvOK 1 1 1 "tok"
    MessageInteractionWithSource emptyData emptyEdit).1 .errEmptyMessage rfl

theorem sendpart_encoding {P F : Type} (p : P) (files : List F)
    (url : String) :
    ((sendpartPOST p (decide (0 < files.length)) files url).multipart = true
        ↔ files ≠ []) ∧
    ((sendpartPOST p (decide (0 < files.length)) files url).body =
      if 0 < files.length then BodyPart.json p :: files.map BodyPart.file
      else [BodyPart.json p]) ∧
    ((sendpartPATCH p (decide (0 < files.length)) files url).multipart = true
        ↔ files ≠ []) ∧
    ((sendpartPATCH p (decide (0 < files.length)) files url).body =
      if 0 < files.length then BodyPart.json p :: files.map BodyPart.file
      else [BodyPart.json p]) := by
  cases files with
  | nil => simp [sendpartPOST, sendpartPATCH]
  | cons x xs => simp [sendpartPOST, sendpartPATCH]

/-- C7: multipart encoding is selected iff the file list is non-empty (a
payload with zero files selects the JSON-only body), and in the multipart
case the body is the JSON-encoded payload as one part followed by the
files in original list order; stated for both payload `NeedsMultipart`
methods, the response-level `NeedsMultipart`, the modelled `sendpart`
body rule, and end to end for a successful FollowUpInteraction and
EditInteractionFollowup request. -/
theorem C7_multipart_selection {E C M Ch F A P : Type}
    (validate : E → Except String E) (elen : E → Nat)
    (mverify : M → Option String) (appID messageID : Nat) (token : String)
    (ty : InteractionResponseType) (p : P)
    (d : InteractionResponseData E C M Ch F)
    (ed : EditInteractionResponseData E C M A F) :
    (d.NeedsMultipart = true ↔ d.Files ≠ []) ∧
    (ed.NeedsMultipart = true ↔ ed.Files ≠ []) ∧
    (InteractionResponse.NeedsMultipart ⟨ty, some d⟩ = d.NeedsMultipart) ∧
    (InteractionResponse.NeedsMultipart
      (⟨ty, none⟩ : InteractionResponse E C M Ch F) = false) ∧
    (∀ url : String,
      ((sendpartPOST p d.NeedsMultipart d.Files url).multipart = true
          ↔ d.Files ≠ []) ∧
      (sendpartPOST p d.NeedsMultipart d.Files url).body =
        (if 0 < d.Files.length
         then BodyPart.json p :: d.Files.map BodyPart.file
         else [BodyPart.json p])) ∧
    (∀ req, followUpInteraction validate elen mverify appID token d
        = .ok req →
      (req.multipart = true ↔ req.payload.Files ≠ []) ∧
      req.body = (if 0 < req.payload.Files.length
        then BodyPart.json req.payload
          :: req.payload.Files.map BodyPart.file
        else [BodyPart.json req.payload])) ∧
    (∀ req, editInteractionFollowup validate elen mverify appID messageID
        token ed = .ok req →
      (req.multipart = true ↔ req.payload.Files ≠ []) ∧
      req.body = (if 0 < req.payload.Files.length
        then BodyPart.json req.payload
          :: req.payload.Files.map BodyPart.file
        else [BodyPart.json req.payload])) := by
  refine ⟨?_, ?_, rfl, rfl, ?_, ?_, ?_⟩
  · simp [InteractionResponseData.NeedsMultipart, List.length_pos]
  · simp [EditInteractionResponseData.NeedsMultipart, List.length_pos]
  · intro url
    exact ⟨(sendpart_encoding p d.Files url).1,
      (sendpart_encoding p d.Files url).2.1⟩
  · intro req h
    rw [followUpInteraction] at h
    split at h
    · cases h
    · split at h
      · cases h
      · split at h
        · cases h
        · cases h
          exact ⟨(sendpart_encoding _ _ _).1, (sendpart_encoding _ _ _).2.1⟩
  · intro req h
    rw [editInteractionFollowup] at h
    split at h
    · cases h
    · split at h
      · cases h
      · cases h
        exact ⟨(sendpart_encoding _ _ _).2.2.1,
          (sendpart_encoding _ _ _).2.2.2⟩

/-- C7 witness: a successful zero-file FollowUpInteraction request selects
the JSON-only body. -/
theorem C7_multipart_selection_witness :
    ((sendpartPOST contentProbe false ([] : List Nat)
        (EndpointWebhooks ++ toString (1 : Nat) ++ "/" ++ "tok"
          ++ "?")).multipart = true ↔
      (sendpartPOST contentProbe false ([] : List Nat)
        (EndpointWebhooks ++ toString (1 : Nat) ++ "/" ++ "tok"
          ++ "?")).payload.Files ≠ []) ∧
    (sendpartPOST contentProbe false ([] : List Nat)
        (EndpointWebhooks ++ toString (1 : Nat) ++ "/" ++ "tok"
          ++ "?")).body =
      (if 0 < (sendpartPOST contentProbe false ([] : List Nat)
          (EndpointWebhooks ++ toString (1 : Nat) ++ "/" ++ "tok"
            ++ "?")).payload.Files.length
       then BodyPart.json (sendpartPOST contentProbe false ([] : List Nat)
          (EndpointWebhooks ++ toString (1 : Nat) ++ "/" ++ "tok"
            ++ "?")).payload
         :: (sendpartPOST contentProbe false ([] : List Nat)
          (EndpointWebhooks ++ toString (1 : Nat) ++ "/" ++ "tok"
            ++ "?")).payload.Files.map BodyPart.file
       else [BodyPart.json (sendpartPOST contentProbe false ([] : List Nat)
          (EndpointWebhooks ++ toString (1 : Nat) ++ "/" ++ "tok"
            ++ "?")).payload]) :=
  (C7_multipart_selection vOK lenId mvOK 1 1 "tok"
    MessageInteractionWithSource contentProbe contentProbe
    emptyEdit).2.2.2.2.2.1 _ rfl

/-- C8: after a successful embed batch validation, the payload carried by
the issued request is the caller-supplied payload with exactly the embed
list replaced, entry by entry at the same index, by the (possibly
normalized) embeds returned by each embed's own validator — order and
length preserved, the nil pointer and nil-vs-empty slice cases preserved —
and no other field of the payload is modified; stated for all four
embed-validating operations. -/
theorem C8_embed_writeback {E C M Ch F A : Type}
    (validate : E → Except String E) (elen : E → Nat)
    (mverify : M → Option String) (appID messageID : Nat) (token : String)
    (ty : InteractionResponseType)
    (d : InteractionResponseData E C M Ch F)
    (ed : EditInteractionResponseData E C M A F) :
    (∀ req, respondInteraction validate elen mverify appID token
        ⟨ty, some d⟩ = .ok req →
      ∃ l2, ValidatesTo validate (embedsListOf d.Embeds) l2 ∧
        l2.length = (embedsListOf d.Embeds).length ∧
        req.payload = ⟨ty, some { d with Embeds := updateEmbeds d.Embeds l2 }⟩) ∧
    (∀ req, followUpInteraction validate elen mverify appID token d
        = .ok req →
      ∃ l2, ValidatesTo validate (embedsListOf d.Embeds) l2 ∧
        l2.length = (embedsListOf d.Embeds).length ∧
        req.payload = { d with Embeds := updateEmbeds d.Embeds l2 }) ∧
    (∀ req, editInteractionResponse validate elen mverify appID token ed
        = .ok req →
      ∃ l2, ValidatesTo validate (embedsListOf ed.Embeds) l2 ∧
        l2.length = (embedsListOf ed.Embeds).length ∧
        req.payload = { ed with Embeds := updateEmbeds ed.Embeds l2 }) ∧
    (∀ req, editInteractionFollowup validate elen mverify appID messageID
        token ed = .ok req →
      ∃ l2, ValidatesTo validate (embedsListOf ed.Embeds) l2 ∧
        l2.length = (embedsListOf ed.Embeds).length ∧
        req.payload = { ed with Embeds := updateEmbeds ed.Embeds l2 }) := by
  refine ⟨?_, ?_, ?_, ?_⟩
  · intro req h
    rw [respondInteraction_some_eq] at h
    split at h
    · cases h
    · rename_i d2 hval
      cases h
      obtain ⟨embeds2, hvv, hd2⟩ := respondValidate_ok hval
      obtain ⟨l2, hvt, heq⟩ := validateEmbedsOpt_ok hvv
      refine ⟨l2, hvt, hvt.length_eq, ?_⟩
      rw [hd2, heq]
      rfl
  · intro req h
    rw [followUpInteraction] at h
    split at h
    · cases h
    · split at h
      · cases h
      · split at h
        · cases h
        · rename_i embeds2 heq2
          cases h
          obtain ⟨l2, hvt, heq⟩ := validateEmbedsOpt_ok heq2
          refine ⟨l2, hvt, hvt.length_eq, ?_⟩
          rw [heq]
          rfl
  · intro req h
    rw [editInteractionResponse] at h
    split at h
    · cases h
    · split at h
      · cases h
      · rename_i embeds2 heq2
        cases h
        obtain ⟨l2, hvt, heq⟩ := validateEmbedsOpt_ok heq2
        refine ⟨l2, hvt, hvt.length_eq, ?_⟩
        rw [heq]
        rfl
  · intro req h
    rw [editInteractionFollowup] at h
    split at h
    · cases h
    · split at h
      · cases h
      · rename_i embeds2 heq2
        cases h
        obtain ⟨l2, hvt, heq⟩ := validateEmbedsOpt_ok heq2
        refine ⟨l2, hvt, hvt.length_eq, ?_⟩
        rw [heq]
        rfl

/-- C8 witness: the write-back characterization at a concrete successful
RespondInteraction call with two embeds. -/
theorem C8_embed_writeback_witness :
    ∃ l2, ValidatesTo vOK (embedsListOf oneEmbedProbe.Embeds) l2 ∧
      l2.length = (embedsListOf oneEmbedProbe.Embeds).length ∧
      (sendpartPOST
        (⟨MessageInteractionWithSource, some oneEmbedProbe⟩ :
          InteractionResponse Nat Unit Unit Unit Nat) false ([] : List Nat)
        (EndpointInteractions ++ toString (1 : Nat) ++ "/" ++ "tok"
          ++ "/callback")).payload =
        ⟨MessageInteractionWithSource,
          some { oneEmbedProbe with
                 Embeds := updateEmbeds oneEmbedProbe.Embeds l2 }⟩ :=
  (C8_embed_writeback vOK lenId mvOK 1 1 "tok" MessageInteractionWithSource
    oneEmbedProbe emptyEdit).1 _ rfl

end Interaction
